import Mathlib

/-!
Verification of `ir_datasets/datasets/isearch.py` and of the generic document
store it is built on.

The shown source file is glue around a generic durable document store
(`PickleLz4FullStore`, from `ir_datasets.indices`); the store's own code is not
part of the shown sources, so its behaviour is modelled from the specification
(definitions below whose doc comments start with `Modelled from the spec:`).
The record types, the `default_text` methods, the XML field extraction of
`_docs_iter`, and `docs_count` are embedded directly from the source.
-/

namespace ISearch

/-- The characters removed by Python's `str.strip()` on ASCII text:
space, tab, newline, carriage return, vertical tab, form feed. -/
def isPyWhitespace (c : Char) : Bool :=
  c = ' ' || c = '\t' || c = '\n' || c = '\r' || c = Char.ofNat 11 || c = Char.ofNat 12

/-- Python's `s.strip()`: remove leading and trailing whitespace. -/
def pyStrip (s : String) : String :=
  String.mk (((s.data.dropWhile isPyWhitespace).reverse.dropWhile isPyWhitespace).reverse)

/-- `iSearchQuery` (isearch.py lines 34-45): a NamedTuple of six string fields. -/
structure iSearchQuery where
  query_id : String
  infoneed : String
  keywords : String
  task : String
  background : String
  ideal : String
  deriving DecidableEq, Repr

/-- `iSearchQuery.default_text` (isearch.py lines 41-45): `return self.keywords`. -/
def iSearchQuery.default_text (q : iSearchQuery) : String :=
  q.keywords

/-- `iSearchDoc` (isearch.py lines 48-63): a NamedTuple of ten string fields. -/
structure iSearchDoc where
  doc_id : String
  document_link : String
  category : String
  title : String
  author : String
  subject : String
  description : String
  venue : String
  fulltext : String
  document_type : String
  deriving DecidableEq, Repr

/-- `iSearchDoc.default_text` (isearch.py lines 59-63):
`return f'{self.title} {self.document_link}'`. -/
def iSearchDoc.default_text (d : iSearchDoc) : String :=
  d.title ++ " " ++ d.document_link

/-- One XML member file, abstracted as the `soup.find` lookup it supports:
for a tag name, the text content of the first matching tag (`some`), or
`none` when the tag is absent from the document. -/
def XmlDoc : Type := String → Option String

/-- The per-tag extraction pattern of `_docs_iter` (isearch.py lines 93-112):
`x = soup.find(TAG); x = x.text.strip() if x else ''`. -/
def extractField (find : XmlDoc) (tag : String) : String :=
  match find tag with
  | some t => pyStrip t
  | none => ""

/-- The record constructed for one XML member by `_docs_iter`
(isearch.py lines 93-114). -/
def parseDoc (find : XmlDoc) : iSearchDoc where
  doc_id := extractField find "DOCNO"
  document_link := extractField find "DOCUMENTLINK"
  category := extractField find "CATEGORY"
  title := extractField find "TITLE"
  author := extractField find "AUTHOR"
  subject := extractField find "SUBJECT"
  description := extractField find "DESCRIPTION"
  venue := extractField find "VENUE"
  fulltext := extractField find "FULLTEXT"
  document_type := extractField find "TYPE"

/-- `iSearchDocs._docs_iter` (isearch.py lines 79-114): the producer sequence,
one record per XML member file of the nested archive, in archive order. -/
def docs_iter_model (xmls : List XmlDoc) : List iSearchDoc :=
  xmls.map parseDoc

/-- The ten (field selector, source XML tag) pairs of `_docs_iter`. -/
def fieldTagPairs : List ((iSearchDoc → String) × String) :=
  [(iSearchDoc.doc_id, "DOCNO"),
   (iSearchDoc.document_link, "DOCUMENTLINK"),
   (iSearchDoc.category, "CATEGORY"),
   (iSearchDoc.title, "TITLE"),
   (iSearchDoc.author, "AUTHOR"),
   (iSearchDoc.subject, "SUBJECT"),
   (iSearchDoc.description, "DESCRIPTION"),
   (iSearchDoc.venue, "VENUE"),
   (iSearchDoc.fulltext, "FULLTEXT"),
   (iSearchDoc.document_type, "TYPE")]

/-- Modelled from the spec: the store artifact on durable storage is absent,
not yet finished (a build wrote a proper prefix of the log and stopped), or
complete (the full log in producer-emitted order plus its indexes).
`PickleLz4FullStore` itself is not among the shown sources. -/
inductive Artifact (α : Type) where
  | absent : Artifact α
  | unfinished (records : List α) : Artifact α
  | complete (records : List α) : Artifact α
  deriving DecidableEq, Repr

/-- Modelled from the spec: the error taxonomy entry for a count-style
operation attempted before the artifact is complete. -/
inductive StoreError where
  | notBuiltError : StoreError
  deriving DecidableEq, Repr

/-- Modelled from the spec: a `PickleLz4FullStore` — its construction-time
configuration (the producer `init_iter_fn`, the lookup field, the optional
count hint) together with the state of its on-disk artifact and a ghost count
of how many times the producer has been invoked. -/
structure Store (α : Type) where
  init_iter_fn : List α
  lookup_field : α → String
  count_hint : Option Int
  artifact : Artifact α
  invocations : Nat

/-- A freshly constructed store over an absent artifact. -/
def mkStore {α : Type} (producer : List α) (f : α → String) (hint : Option Int) :
    Store α :=
  { init_iter_fn := producer, lookup_field := f, count_hint := hint,
    artifact := Artifact.absent, invocations := 0 }

/-- Modelled from the spec: `built()` — a cheap completeness check of the
artifact; only a complete artifact passes; never triggers a build. -/
def built {α : Type} (st : Store α) : Bool :=
  match st.artifact with
  | Artifact.complete _ => true
  | _ => false

/-- The records of a complete artifact (empty for the other states, which may
not serve reads). -/
def artifactRecords {α : Type} (st : Store α) : List α :=
  match st.artifact with
  | Artifact.complete l => l
  | _ => []

/-- Modelled from the spec: `count()` — the number of records of a complete
artifact; fails with `NotBuiltError` before the artifact is complete. -/
def count {α : Type} (st : Store α) : Except StoreError Nat :=
  match st.artifact with
  | Artifact.complete l => Except.ok l.length
  | _ => Except.error StoreError.notBuiltError

/-- Modelled from the spec: a completed build — the producer is drained exactly
once and its full output persisted, in emission order, as a complete artifact. -/
def build {α : Type} (st : Store α) : Store α :=
  { st with artifact := Artifact.complete st.init_iter_fn,
            invocations := st.invocations + 1 }

/-- Modelled from the spec: a build aborted after writing `n` records leaves
an unfinished artifact holding the first `n` records; it is never marked
complete. -/
def buildAborted {α : Type} (st : Store α) (n : Nat) : Store α :=
  { st with artifact := Artifact.unfinished (st.init_iter_fn.take n),
            invocations := st.invocations + 1 }

/-- Modelled from the spec: the user-facing progress display during a build,
the only consumer of the count hint. -/
def progressDisplay (hint : Option Int) (emitted : Nat) : String :=
  match hint with
  | some k => toString emitted ++ " of " ++ toString k
  | none => toString emitted

/-- Modelled from the spec: `iterate()` — streams a complete artifact's log in
order; on any other artifact state it performs a full fresh build, yielding
each record as the producer emits it. -/
def iterate {α : Type} (st : Store α) : List α × Store α :=
  match st.artifact with
  | Artifact.complete l => (l, st)
  | _ => (st.init_iter_fn, build st)

/-- Modelled from the spec: ensure the artifact is complete, building it fully
and synchronously when it is not. -/
def ensureBuilt {α : Type} (st : Store α) : Store α :=
  if built st then st else build st

/-- Modelled from the spec: `get_by_key` on a non-unique indexed field —
after ensuring completeness, all records whose field equals the value, in log
order; the empty list means no match. -/
def get_by_key {α : Type} (st : Store α) (v : String) : List α × Store α :=
  ((artifactRecords (ensureBuilt st)).filter (fun r => st.lookup_field r = v),
   ensureBuilt st)

/-- Modelled from the spec: `get_by_key` on a field declared unique — at most
one record; `none` means no match. -/
def get_by_key_unique {α : Type} (st : Store α) (v : String) :
    Option α × Store α :=
  (((artifactRecords (ensureBuilt st)).filter
      (fun r => st.lookup_field r = v)).head?,
   ensureBuilt st)

/-- `iSearchDocs.docs_store` (isearch.py lines 117-125): a `PickleLz4FullStore`
whose producer is `_docs_iter`, with the given lookup field (default `doc_id`)
and the registry count hint. -/
def docs_store (xmls : List XmlDoc) (field : iSearchDoc → String)
    (hint : Option Int) : Store iSearchDoc :=
  mkStore (docs_iter_model xmls) field hint

/-- `iSearchDocs.docs_iter` (isearch.py lines 76-77):
`return iter(self.docs_store())` — plain iteration of the store. -/
def docs_iter (st : Store iSearchDoc) : List iSearchDoc × Store iSearchDoc :=
  iterate st

/-- `iSearchDocs.docs_count` (isearch.py lines 127-129):
`if self.docs_store().built(): return self.docs_store().count()` —
`None` (here `none`) when the store is not built. -/
def docs_count (st : Store iSearchDoc) : Option Nat :=
  if built st then
    match count st with
    | Except.ok n => some n
    | Except.error _ => none
  else none

/-- The log served by an artifact (empty unless complete). -/
def logOf {α : Type} (a : Artifact α) : List α :=
  match a with
  | Artifact.complete l => l
  | _ => []

/-- Modelled from the spec: the program counter of one caller thread running a
first-time `iterate()`: acquire the path-scoped build lock; in the critical
section check completeness and, if needed, run the one build; then read the
log; done. -/
inductive Pc where
  | acquire : Pc
  | critical : Pc
  | readLog : Pc
  | done : Pc
  deriving DecidableEq, Repr

/-- Modelled from the spec: the shared state of two caller threads racing a
first-time `iterate()`: the advisory lock (holder's thread id), the artifact,
a ghost producer-invocation count, and each thread's program counter and
observed output. -/
structure ConcState (α : Type) where
  lock : Option Bool
  artifact : Artifact α
  invocations : Nat
  pc1 : Pc
  pc2 : Pc
  out1 : Option (List α)
  out2 : Option (List α)
  deriving DecidableEq, Repr

/-- The program counter of thread `t` (`false` = first, `true` = second). -/
def pcOf {α : Type} (t : Bool) (c : ConcState α) : Pc :=
  match t with
  | false => c.pc1
  | true => c.pc2

/-- Set the program counter of thread `t`. -/
def setPc {α : Type} (t : Bool) (p : Pc) (c : ConcState α) : ConcState α :=
  match t with
  | false => { c with pc1 := p }
  | true => { c with pc2 := p }

/-- Set the observed output of thread `t`. -/
def setOut {α : Type} (t : Bool) (o : Option (List α)) (c : ConcState α) :
    ConcState α :=
  match t with
  | false => { c with out1 := o }
  | true => { c with out2 := o }

/-- Modelled from the spec: one interleaving step of thread `t`; `P` is the
producer's emission sequence. Acquiring blocks while the lock is held; the
critical section checks the artifact and runs the full build only when it is
not complete, releasing the lock on exit; reading returns the complete log. -/
def step {α : Type} (P : List α) (t : Bool) (c : ConcState α) : ConcState α :=
  match pcOf t c with
  | Pc.acquire =>
    match c.lock with
    | none => setPc t Pc.critical { c with lock := some t }
    | some _ => c
  | Pc.critical =>
    match c.artifact with
    | Artifact.complete _ => setPc t Pc.readLog { c with lock := none }
    | _ => setPc t Pc.readLog
        { c with artifact := Artifact.complete P,
                 invocations := c.invocations + 1, lock := none }
  | Pc.readLog => setPc t Pc.done (setOut t (some (logOf c.artifact)) c)
  | Pc.done => c

/-- The initial shared state: empty store, free lock, both threads about to
start a first-time `iterate()`. -/
def concInit (α : Type) : ConcState α :=
  { lock := none, artifact := Artifact.absent, invocations := 0,
    pc1 := Pc.acquire, pc2 := Pc.acquire, out1 := none, out2 := none }

/-- Run the two threads under an interleaving schedule (each entry names the
thread that takes the next step). -/
def run {α : Type} (P : List α) (sched : List Bool) : ConcState α :=
  sched.foldl (fun c t => step P t c) (concInit α)

/-- The inductive invariant of the two-caller interleaving model: the artifact
is absent or the complete log `P`; the invocation count tracks it; the lock is
held exactly by the thread in its critical section; a thread past its critical
section sees a complete artifact; a finished thread has observed exactly `P`. -/
def Inv {α : Type} (P : List α) (c : ConcState α) : Prop :=
  (c.artifact = Artifact.absent ∨ c.artifact = Artifact.complete P) ∧
  (c.artifact = Artifact.absent → c.invocations = 0) ∧
  (c.artifact = Artifact.complete P → c.invocations = 1) ∧
  (c.lock = some false ↔ c.pc1 = Pc.critical) ∧
  (c.lock = some true ↔ c.pc2 = Pc.critical) ∧
  (c.pc1 = Pc.readLog ∨ c.pc1 = Pc.done → c.artifact = Artifact.complete P) ∧
  (c.pc2 = Pc.readLog ∨ c.pc2 = Pc.done → c.artifact = Artifact.complete P) ∧
  (c.pc1 = Pc.done → c.out1 = some P) ∧
  (c.pc2 = Pc.done → c.out2 = some P)

/-- A sample document with the given identifier, for concrete evaluations. -/
def exDoc (i : String) : iSearchDoc :=
  { doc_id := i, document_link := "", category := "", title := "", author := "",
    subject := "", description := "", venue := "", fulltext := "",
    document_type := "" }

/-- A sample producer sequence of three documents. -/
def exP : List iSearchDoc := [exDoc "d1", exDoc "d2", exDoc "d3"]

/-- A schedule under which both threads run to completion (thread 1 builds,
thread 2 finds the artifact complete). -/
def exSched : List Bool := [false, false, false, true, true, true]

/-- A sample XML member: a TITLE tag with surrounding whitespace, a DOCNO tag,
all other tags absent. -/
def exFind : XmlDoc :=
  fun tag =>
    if tag = "DOCNO" then some "d1"
    else if tag = "TITLE" then some "  A Title " else none

/-- If the field values of a list are pairwise distinct, filtering the list
for the field value of one of its members yields exactly that member. -/
theorem filter_key_eq_singleton {α : Type} (f : α → String) (r : α) :
    ∀ (l : List α), (l.map f).Nodup → r ∈ l →
      l.filter (fun x => f x = f r) = [r] := by
  intro l
  induction l with
  | nil => intro _ h; cases h
  | cons a l ih =>
    intro hnd hr
    rw [List.map_cons, List.nodup_cons] at hnd
    obtain ⟨hna, hnd⟩ := hnd
    rcases List.mem_cons.mp hr with h | h
    · subst h
      rw [List.filter_cons_of_pos (by simp)]
      have hnil : l.filter (fun x => f x = f r) = [] := by
        refine List.filter_eq_nil_iff.mpr ?_
        intro x hx
        simp only [decide_eq_true_eq]
        intro hfx
        exact hna (hfx ▸ List.mem_map_of_mem f hx)
      rw [hnil]
    · have hfa : ¬(f a = f r) := by
        intro heq
        exact hna (heq ▸ List.mem_map_of_mem f h)
      rw [List.filter_cons_of_neg (by simpa using hfa)]
      exact ih hnd h

/-- C9: `iSearchDoc.default_text` returns exactly the title, one space, and
the document link concatenated — the description field never affects it — and
`iSearchQuery.default_text` returns exactly the keywords field. -/
theorem c9_default_text :
    (∀ d : iSearchDoc, d.default_text = d.title ++ " " ++ d.document_link) ∧
    (∀ (d : iSearchDoc) (s : String),
      iSearchDoc.default_text { d with description := s } =
        iSearchDoc.default_text d) ∧
    (∀ q : iSearchQuery, q.default_text = q.keywords) :=
  ⟨fun _ => rfl, fun _ _ => rfl, fun _ => rfl⟩

/-- C8: when the store artifact is not complete, `iSearchDocs.docs_count`
returns `none` — it neither fails nor triggers a build — and when `built()`
holds it returns the record count of the complete artifact. -/
theorem c8_docs_count_checks_built (st : Store iSearchDoc) :
    (built st = false → docs_count st = none) ∧
    (built st = true → docs_count st = some (artifactRecords st).length) := by
  cases hA : st.artifact <;>
    simp [docs_count, built, count, artifactRecords, hA]

/-- Witness for C8 at a concrete fresh (unbuilt) store. -/
theorem c8_docs_count_checks_built_witness :
    docs_count (mkStore exP iSearchDoc.doc_id none) = none :=
  (c8_docs_count_checks_built (mkStore exP iSearchDoc.doc_id none)).1 rfl

/-- C5: `count()` fails with `NotBuiltError` while the artifact is not
complete, and returns the number of records once it is complete. -/
theorem c5_count_requires_built {α : Type} (st : Store α) :
    (built st = false → count st = Except.error StoreError.notBuiltError) ∧
    (∀ l, st.artifact = Artifact.complete l → count st = Except.ok l.length) := by
  refine ⟨?_, ?_⟩
  · intro h
    cases hA : st.artifact with
    | absent => simp [count, hA]
    | unfinished l => simp [count, hA]
    | complete l => simp [built, hA] at h
  · intro l hl
    simp [count, hl]

/-- Witness for C5 at a concrete fresh (unbuilt) store. -/
theorem c5_count_requires_built_witness :
    count (mkStore exP iSearchDoc.doc_id none) =
      Except.error StoreError.notBuiltError :=
  (c5_count_requires_built (mkStore exP iSearchDoc.doc_id none)).1 rfl

/-- C1: after a fresh build, iterating the store yields exactly the producer's
records in emission order; repeated iteration, and iteration after the
artifact is externally removed and rebuilt, yield the same sequence; and
`iSearchDocs.docs_iter` on a fresh docs store yields exactly the `_docs_iter`
producer sequence. -/
theorem c1_iterate_reproduces_producer {α : Type} (P : List α) (f : α → String)
    (hint : Option Int) :
    (iterate (mkStore P f hint)).1 = P ∧
    (iterate ((iterate (mkStore P f hint)).2)).1 = P ∧
    (iterate { (iterate (mkStore P f hint)).2 with
                 artifact := Artifact.absent }).1 = P ∧
    ∀ (xmls : List XmlDoc) (h2 : Option Int),
      (docs_iter (docs_store xmls iSearchDoc.doc_id h2)).1 =
        docs_iter_model xmls :=
  ⟨rfl, rfl, rfl, fun _ _ => rfl⟩

/-- C3: once a build has completed, a further build-triggering access does not
re-invoke the producer, and `count()` and `iterate()` afterwards return
results identical to those after the first build. -/
theorem c3_build_idempotent {α : Type} (P : List α) (f : α → String)
    (hint : Option Int) :
    (iterate ((iterate (mkStore P f hint)).2)).2.invocations =
      (iterate (mkStore P f hint)).2.invocations ∧
    ensureBuilt ((iterate (mkStore P f hint)).2) =
      (iterate (mkStore P f hint)).2 ∧
    (iterate ((iterate (mkStore P f hint)).2)).1 =
      (iterate (mkStore P f hint)).1 ∧
    count ((iterate ((iterate (mkStore P f hint)).2)).2) =
      count ((iterate (mkStore P f hint)).2) :=
  ⟨rfl, rfl, rfl, rfl⟩

/-- C4: a build aborted after `n < length P` records leaves an artifact that
every subsequent call observes as not built: `built()` is false, `count()`
fails, and `iterate()` performs a full fresh build yielding all of the
producer's records from the start and only then marks the artifact complete;
more generally no unfinished artifact is ever observed as built. -/
theorem c4_aborted_build_collapses_to_absent {α : Type} (st : Store α)
    (n : Nat) (hn : n < st.init_iter_fn.length) :
    built (buildAborted st n) = false ∧
    count (buildAborted st n) = Except.error StoreError.notBuiltError ∧
    (iterate (buildAborted st n)).1 = st.init_iter_fn ∧
    (iterate (buildAborted st n)).2.artifact =
      Artifact.complete st.init_iter_fn ∧
    ∀ (st2 : Store α) (l : List α),
      st2.artifact = Artifact.unfinished l → built st2 = false := by
  refine ⟨rfl, rfl, rfl, rfl, ?_⟩
  intro st2 l hl
  simp [built, hl]

/-- Witness for C4: a build of a three-record producer aborted after one
record. -/
theorem c4_aborted_build_collapses_to_absent_witness :
    built (buildAborted (mkStore exP iSearchDoc.doc_id none) 1) = false ∧
    count (buildAborted (mkStore exP iSearchDoc.doc_id none) 1) =
      Except.error StoreError.notBuiltError ∧
    (iterate (buildAborted (mkStore exP iSearchDoc.doc_id none) 1)).1 =
      (mkStore exP iSearchDoc.doc_id none).init_iter_fn ∧
    (iterate (buildAborted (mkStore exP iSearchDoc.doc_id none) 1)).2.artifact =
      Artifact.complete (mkStore exP iSearchDoc.doc_id none).init_iter_fn ∧
    ∀ (st2 : Store iSearchDoc) (l : List iSearchDoc),
      st2.artifact = Artifact.unfinished l → built st2 = false :=
  c4_aborted_build_collapses_to_absent (mkStore exP iSearchDoc.doc_id none) 1
    (by decide)

/-- C6: the count hint never affects correctness — two stores differing only
in the hint agree on `built()`, `count()`, the records and resulting artifact
and invocation count of `iterate()`, and `get_by_key` on every value. -/
theorem c6_count_hint_immaterial {α : Type} (st : Store α) (h : Option Int) :
    built { st with count_hint := h } = built st ∧
    count { st with count_hint := h } = count st ∧
    (iterate { st with count_hint := h }).1 = (iterate st).1 ∧
    (iterate { st with count_hint := h }).2.artifact =
      (iterate st).2.artifact ∧
    (iterate { st with count_hint := h }).2.invocations =
      (iterate st).2.invocations ∧
    ∀ v, (get_by_key { st with count_hint := h } v).1 = (get_by_key st v).1 ∧
      (get_by_key_unique { st with count_hint := h } v).1 =
        (get_by_key_unique st v).1 := by
  obtain ⟨P0, f0, h0, a0, k0⟩ := st
  cases a0 <;>
    simp [built, count, iterate, build, get_by_key, get_by_key_unique,
      ensureBuilt, artifactRecords]

/-- C2: on a fresh store, looking a key up on a unique indexed field returns
exactly the record carrying that key; a value that is no record's key returns
no match; and non-unique lookup returns exactly the matching subset of the
producer sequence, in emission order. -/
theorem c2_get_by_key_lookup {α : Type} (P : List α) (f : α → String)
    (hint : Option Int) :
    (∀ r, r ∈ P → (P.map f).Nodup →
      (get_by_key_unique (mkStore P f hint) (f r)).1 = some r) ∧
    (∀ v, v ∉ P.map f →
      (get_by_key_unique (mkStore P f hint) v).1 = none ∧
      (get_by_key (mkStore P f hint) v).1 = []) ∧
    (∀ v, (get_by_key (mkStore P f hint) v).1 =
      P.filter (fun r => f r = v)) := by
  refine ⟨?_, ?_, ?_⟩
  · intro r hr hnd
    show (P.filter (fun x => f x = f r)).head? = some r
    rw [filter_key_eq_singleton f r P hnd hr]
    rfl
  · intro v hv
    have hfil : P.filter (fun x => f x = v) = [] := by
      refine List.filter_eq_nil_iff.mpr ?_
      intro x hx
      simp only [decide_eq_true_eq]
      intro he
      exact hv (he ▸ List.mem_map_of_mem f hx)
    exact ⟨by show (P.filter (fun x => f x = v)).head? = none; rw [hfil]; rfl,
           by show P.filter (fun x => f x = v) = []; exact hfil⟩
  · intro v
    rfl

/-- Witness for C2: unique lookup of the second of three concrete records. -/
theorem c2_get_by_key_lookup_witness :
    (get_by_key_unique (mkStore exP iSearchDoc.doc_id none)
      (iSearchDoc.doc_id (exDoc "d2"))).1 = some (exDoc "d2") :=
  (c2_get_by_key_lookup exP iSearchDoc.doc_id none).1 (exDoc "d2")
    (by decide) (by decide)

/-- C10: every record yielded by `_docs_iter` is total over its ten string
fields: each field equals its source tag's text with surrounding whitespace
stripped when the tag is present, and the empty string when it is absent. -/
theorem c10_docs_iter_fields_total (xmls : List XmlDoc) (d : iSearchDoc)
    (hd : d ∈ docs_iter_model xmls) :
    ∃ find, find ∈ xmls ∧ d = parseDoc find ∧
      ∀ p ∈ fieldTagPairs,
        (∀ t, find p.2 = some t → p.1 d = pyStrip t) ∧
        (find p.2 = none → p.1 d = "") := by
  obtain ⟨find, hfind, rfl⟩ := List.mem_map.mp hd
  refine ⟨find, hfind, rfl, ?_⟩
  intro p hp
  simp only [fieldTagPairs, List.mem_cons, List.not_mem_nil, or_false] at hp
  rcases hp with rfl | rfl | rfl | rfl | rfl | rfl | rfl | rfl | rfl | rfl <;>
    exact ⟨fun t ht => by simp [parseDoc, extractField, ht],
           fun ht => by simp [parseDoc, extractField, ht]⟩

/-- Witness for C10: a member whose TITLE carries surrounding whitespace and
whose other tags are mostly absent. -/
theorem c10_docs_iter_fields_total_witness :
    ∃ find, find ∈ [exFind] ∧ parseDoc exFind = parseDoc find ∧
      ∀ p ∈ fieldTagPairs,
        (∀ t, find p.2 = some t → p.1 (parseDoc exFind) = pyStrip t) ∧
        (find p.2 = none → p.1 (parseDoc exFind) = "") :=
  c10_docs_iter_fields_total [exFind] (parseDoc exFind)
    (by simp [docs_iter_model])

/-- The invariant holds in the initial two-caller state. -/
theorem inv_init {α : Type} (P : List α) : Inv P (concInit α) := by
  simp [Inv, concInit]

/-- One interleaving step of either thread preserves the invariant. -/
theorem inv_step {α : Type} (P : List α) (t : Bool) (c : ConcState α)
    (h : Inv P c) : Inv P (step P t c) := by
  obtain ⟨hart, hi0, hi1, hlf, hlt, hp1, hp2, ho1, ho2⟩ := h
  cases t with
  | false =>
    cases hpc : c.pc1 with
    | acquire =>
      cases hl : c.lock with
      | none =>
        simp only [step, pcOf, hpc, hl, setPc]
        refine ⟨?_, ?_, ?_, ?_, ?_, ?_, ?_, ?_, ?_⟩ <;> simp_all [Inv]
      | some b =>
        simp only [step, pcOf, hpc, hl]
        exact ⟨hart, hi0, hi1, hlf, hlt, hp1, hp2, ho1, ho2⟩
    | critical =>
      cases hA : c.artifact with
      | absent =>
        simp only [step, pcOf, hpc, hA, setPc]
        refine ⟨?_, ?_, ?_, ?_, ?_, ?_, ?_, ?_, ?_⟩ <;> simp_all [Inv]
      | unfinished l =>
        rcases hart with h | h <;> simp [hA] at h
      | complete l =>
        have hlP : l = P := by
          rcases hart with h | h <;> simp [hA] at h
          exact h
        subst hlP
        simp only [step, pcOf, hpc, hA, setPc]
        refine ⟨?_, ?_, ?_, ?_, ?_, ?_, ?_, ?_, ?_⟩ <;> simp_all [Inv]
    | readLog =>
      have hAc : c.artifact = Artifact.complete P := hp1 (Or.inl hpc)
      simp only [step, pcOf, hpc, setPc, setOut, hAc, logOf]
      refine ⟨?_, ?_, ?_, ?_, ?_, ?_, ?_, ?_, ?_⟩ <;> simp_all [Inv]
    | done =>
      simp only [step, pcOf, hpc]
      exact ⟨hart, hi0, hi1, hlf, hlt, hp1, hp2, ho1, ho2⟩
  | true =>
    cases hpc : c.pc2 with
    | acquire =>
      cases hl : c.lock with
      | none =>
        simp only [step, pcOf, hpc, hl, setPc]
        refine ⟨?_, ?_, ?_, ?_, ?_, ?_, ?_, ?_, ?_⟩ <;> simp_all [Inv]
      | some b =>
        simp only [step, pcOf, hpc, hl]
        exact ⟨hart, hi0, hi1, hlf, hlt, hp1, hp2, ho1, ho2⟩
    | critical =>
      cases hA : c.artifact with
      | absent =>
        simp only [step, pcOf, hpc, hA, setPc]
        refine ⟨?_, ?_, ?_, ?_, ?_, ?_, ?_, ?_, ?_⟩ <;> simp_all [Inv]
      | unfinished l =>
        rcases hart with h | h <;> simp [hA] at h
      | complete l =>
        have hlP : l = P := by
          rcases hart with h | h <;> simp [hA] at h
          exact h
        subst hlP
        simp only [step, pcOf, hpc, hA, setPc]
        refine ⟨?_, ?_, ?_, ?_, ?_, ?_, ?_, ?_, ?_⟩ <;> simp_all [Inv]
    | readLog =>
      have hAc : c.artifact = Artifact.complete P := hp2 (Or.inl hpc)
      simp only [step, pcOf, hpc, setPc, setOut, hAc, logOf]
      refine ⟨?_, ?_, ?_, ?_, ?_, ?_, ?_, ?_, ?_⟩ <;> simp_all [Inv]
    | done =>
      simp only [step, pcOf, hpc]
      exact ⟨hart, hi0, hi1, hlf, hlt, hp1, hp2, ho1, ho2⟩

/-- The invariant is preserved along any interleaving schedule. -/
theorem inv_fold {α : Type} (P : List α) :
    ∀ (sched : List Bool) (c : ConcState α), Inv P c →
      Inv P (sched.foldl (fun c t => step P t c) c) := by
  intro sched
  induction sched with
  | nil => intro c h; exact h
  | cons t ts ih => intro c h; exact ih (step P t c) (inv_step P t c h)

/-- C7: when two concurrent first-time `iterate()` callers on an empty store
both run to completion under any interleaving, each observes the complete
producer sequence in order and the producer was invoked exactly once across
both; and under no interleaving are both callers inside the lock-guarded
build section at once. -/
theorem c7_concurrent_first_iterate {α : Type} (P : List α)
    (sched sched2 : List Bool)
    (h1 : (run P sched).pc1 = Pc.done) (h2 : (run P sched).pc2 = Pc.done) :
    (run P sched).out1 = some P ∧ (run P sched).out2 = some P ∧
    (run P sched).invocations = 1 ∧
    ¬((run P sched2).pc1 = Pc.critical ∧ (run P sched2).pc2 = Pc.critical) := by
  have hI : Inv P (run P sched) := inv_fold P sched (concInit α) (inv_init P)
  have hJ : Inv P (run P sched2) := inv_fold P sched2 (concInit α) (inv_init P)
  obtain ⟨-, -, hi1, -, -, hq1, -, hu1, hu2⟩ := hI
  obtain ⟨-, -, -, hlf, hlt, -, -, -, -⟩ := hJ
  refine ⟨hu1 h1, hu2 h2, hi1 (hq1 (Or.inr h1)), ?_⟩
  rintro ⟨ha, hb⟩
  have hx := hlf.mpr ha
  have hy := hlt.mpr hb
  rw [hx] at hy
  simp at hy

/-- Witness for C7: a concrete schedule under which the first thread builds
and the second finds the artifact already complete. -/
theorem c7_concurrent_first_iterate_witness :
    (run exP exSched).out1 = some exP ∧ (run exP exSched).out2 = some exP ∧
    (run exP exSched).invocations = 1 ∧
    ¬((run exP [false]).pc1 = Pc.critical ∧
      (run exP [false]).pc2 = Pc.critical) :=
  c7_concurrent_first_iterate exP exSched [false] (by decide) (by decide)

end ISearch
